import Mathlib

/-!
Verification development for the Sales Forge frontend orchestration layer
(`frontend/src/App.jsx`, `frontend/src/components/*.jsx`,
`frontend/src/services/api.js`).  The JavaScript handlers are embedded as
pure Lean functions over explicit state records; asynchronous React state
updates are modelled as immediate functional updates, and network calls are
modelled by the list of requests a handler issues together with an explicit
outcome parameter.
-/

namespace SalesForge

/-- JavaScript truthiness for an optional string field: `undefined`, `null`
and the empty string are falsy. -/
def truthyS : Option String → Bool
  | none => false
  | some s => !(s == "")

/-- `Math.round` on an exact rational: `⌊q + 1/2⌋`, rounding half toward
positive infinity, which agrees with JavaScript `Math.round` on the finite
values arising here. -/
def jsRound (q : ℚ) : ℤ := ⌊q + 1 / 2⌋

/-- JavaScript `String.prototype.endsWith`, on code points. -/
def jsEndsWith (s suffix : String) : Bool := suffix.data.isSuffixOf s.data

/-- JavaScript `String.prototype.startsWith`, on code points. -/
def jsStartsWith (s pre : String) : Bool := pre.data.isPrefixOf s.data

/-- JavaScript `String.prototype.slice(n)`, on code points. -/
def jsSliceFrom (n : Nat) (s : String) : String := ⟨s.data.drop n⟩

/-- JavaScript `String.prototype.split` at newline characters. -/
def jsSplitNl (s : String) : List String := (s.data.splitOn (Char.ofNat 10)).map String.mk

namespace App

/-- One parsed server-sent event as consumed by `onMessage` in `App.jsx`
(fields `phase`, `message`, `data`, `workflow_name`; the `data` payload is
kept opaque as a string). -/
structure WorkflowEvent where
  phase : Option String
  message : Option String
  data : Option String
  workflow_name : Option String
deriving Repr, DecidableEq

/-- The `workflowState` React state object built in `handleLeadSubmit`
(`App.jsx` lines 170-178). -/
structure WorkflowState where
  workflowId : String
  currentPhase : Option String
  completedPhases : List String
  phaseData : List (String × String)
  currentMessage : Option String
  isComplete : Bool
  workflowName : Option String
deriving Repr, DecidableEq

/-- Initial `workflowState` set by `handleLeadSubmit` before streaming
starts (`App.jsx` lines 170-178). -/
def initialWorkflowState (id : String) : WorkflowState :=
  { workflowId := id
    currentPhase := none
    completedPhases := []
    phaseData := []
    currentMessage := some "Initializing workflow..."
    isComplete := false
    workflowName := none }

/-- The streaming `onMessage` handler of `handleLeadSubmit`
(`App.jsx` lines 183-220), as a pure state transformer on the
`workflowState` object.  Steps, in source order:
update `currentPhase` and `currentMessage` when truthy; on a phase ending
in `_complete`, append it to `completedPhases` unless already present and
record the `data` payload; on phase `workflow_complete`, set `isComplete`
and capture `workflow_name` when truthy. -/
def onMessage (data : WorkflowEvent) (prev : WorkflowState) : WorkflowState :=
  let ph := data.phase.getD ""
  let s1 := if truthyS data.phase then { prev with currentPhase := data.phase } else prev
  let s2 := if truthyS data.message then { s1 with currentMessage := data.message } else s1
  let s3 :=
    if truthyS data.phase && jsEndsWith ph "_complete" then
      let s3a :=
        if ph ∈ s2.completedPhases then s2
        else { s2 with completedPhases := s2.completedPhases ++ [ph] }
      if truthyS data.data then
        { s3a with phaseData := (ph, data.data.getD "") :: s3a.phaseData }
      else s3a
    else s2
  if ph = "workflow_complete" then
    let s4 := { s3 with isComplete := true }
    if truthyS data.workflow_name then { s4 with workflowName := data.workflow_name } else s4
  else s3

/-- `onMessage` additionally calls `setIsLoading(false)` exactly in the
`workflow_complete` branch (`App.jsx` line 215); this models the resulting
`isLoading` flag. -/
def onMessageLoading (data : WorkflowEvent) (loading : Bool) : Bool :=
  if data.phase.getD "" = "workflow_complete" then false else loading

/-- Processing a whole sequence of streamed events through `onMessage`. -/
def processEvents (events : List WorkflowEvent) (s : WorkflowState) : WorkflowState :=
  events.foldl (fun acc e => onMessage e acc) s

end App

namespace Heartbeat

/-- The live interval timers of the page plus the
`heartbeatIntervalRef.current` ref of `App.jsx` (line 65).  `live` lists the
ids of interval timers that have been created by `setInterval` and not yet
cleared; `next` is the fresh-id supply. -/
structure TimerSys where
  live : List Nat
  ref : Option Nat
  next : Nat
deriving Repr, DecidableEq

/-- No timer yet: the initial `useRef(null)` state. -/
def initTimerSys : TimerSys := { live := [], ref := none, next := 0 }

/-- `startHeartbeat` (`App.jsx` lines 68-85): clear the existing interval if
the ref holds one, then install a fresh interval timer and store its id in
the ref. -/
def startHeartbeat (s : TimerSys) : TimerSys :=
  let s1 :=
    match s.ref with
    | some t => { s with live := s.live.erase t }
    | none => s
  { live := s1.live ++ [s1.next], ref := some s1.next, next := s1.next + 1 }

/-- `stopHeartbeat` (`App.jsx` lines 87-92): if the ref holds an interval,
clear it and null the ref. -/
def stopHeartbeat (s : TimerSys) : TimerSys :=
  match s.ref with
  | some t => { s with live := s.live.erase t, ref := none }
  | none => s

/-- An interleaving step: the only operations that touch the heartbeat ref
in `App.jsx` are `startHeartbeat(workflowId)` and `stopHeartbeat()`. -/
inductive HeartbeatOp where
  | start
  | stop
deriving Repr, DecidableEq

def applyOp (s : TimerSys) : HeartbeatOp → TimerSys
  | .start => startHeartbeat s
  | .stop => stopHeartbeat s

def applyOps (ops : List HeartbeatOp) (s : TimerSys) : TimerSys :=
  ops.foldl applyOp s

/-- The heartbeat period passed to `setInterval` (`App.jsx` line 84):
30000 milliseconds. -/
def heartbeatPeriodMs : Nat := 30000

/-- Modelled from the spec: the backend Cancellation & Heartbeat Monitor
(the FastAPI side of `/api/heartbeat`) is not among the repository sources;
§4.6 of the spec gives its abandonment timeout as 60 seconds. -/
def abandonTimeoutMs : Nat := 60000

/-- The request URL issued by each heartbeat interval tick
(`App.jsx` line 75). -/
def heartbeatRequest (workflowId : String) : String :=
  "http://localhost:8000/api/heartbeat/" ++ workflowId

/-- One tick of the heartbeat interval callback (`App.jsx` lines 73-84):
issue a POST to the heartbeat endpoint; on failure, `console.warn` and
return — the timer system itself is untouched either way.  Result:
(timer state, requests issued, warnings logged). -/
def heartbeatTick (workflowId : String) (ok : Bool) (s : TimerSys) :
    TimerSys × List String × List String :=
  (s, [heartbeatRequest workflowId], if ok then [] else ["Heartbeat failed:"])

end Heartbeat

namespace StopCtl

open Heartbeat

/-- Outcome of the `fetch` in `handleStopWorkflow`: HTTP success
(`response.ok`), HTTP non-success, or a thrown network error. -/
inductive FetchOutcome where
  | ok
  | notOk
  | netError
deriving Repr, DecidableEq

/-- The `App.jsx` state touched by `handleStopWorkflow`
(lines 132-153): the tracked workflow id, the heartbeat timers, the
loading flag and the error banner. -/
structure AppCtl where
  currentWorkflowId : Option String
  timers : TimerSys
  isLoading : Bool
  error : Option String
deriving Repr, DecidableEq

/-- The cancel request URL (`App.jsx` line 138). -/
def cancelRequest (workflowId : String) : String :=
  "http://localhost:8000/api/cancel-workflow/" ++ workflowId

/-- `handleStopWorkflow` (`App.jsx` lines 132-153): guarded by
`if (currentWorkflowId)`; inside, stop the heartbeat, POST the cancel
request (on `response.ok` clear loading and set the stop banner, on a
thrown error set the failure banner), then null `currentWorkflowId`.
Result: (new state, requests issued). -/
def handleStopWorkflow (outcome : FetchOutcome) (s : AppCtl) : AppCtl × List String :=
  match s.currentWorkflowId with
  | some wid =>
      let t := stopHeartbeat s.timers
      let s1 :=
        match outcome with
        | .ok => { s with timers := t, isLoading := false, error := some "Workflow stopped by user" }
        | .notOk => { s with timers := t }
        | .netError => { s with timers := t, error := some "Failed to stop workflow" }
      ({ s1 with currentWorkflowId := none }, [cancelRequest wid])
  | none => (s, [])

end StopCtl

namespace Stream

/-- One SSE line of `createWorkflowStream` (`services/api.js`): deliver a
message only for a line starting with `"data: "` whose remainder parses as
JSON; `JSON.parse` is modelled by the partial function `parse`, and a
parse failure is caught (`console.warn`) rather than propagated. -/
def parseSSELine (parse : String → Option String) (line : String) : Option String :=
  if jsStartsWith line "data: " then parse (jsSliceFrom 6 line) else none

/-- Messages delivered to `onMessage` for one decoded chunk: the chunk is
split on newlines and each line handled by `parseSSELine`. -/
def chunkMessages (parse : String → Option String) (chunk : String) : List String :=
  (jsSplitNl chunk).filterMap (parseSSELine parse)

/-- The `readStream` loop of `createWorkflowStream`: reads every chunk,
delivers the well-formed events of each in order, and calls `onComplete`
when the reader reports `done`.  Result: (messages delivered to
`onMessage`, whether `onComplete` was invoked). -/
def readStream (parse : String → Option String) (chunks : List String) :
    List String × Bool :=
  ((chunks.map (chunkMessages parse)).flatten, true)

end Stream

namespace Progressive

open App

/-- The fixed `phases` array of `ProgressiveResultsDisplay.jsx`
(lines 17-46), by phase id. -/
def displayPhases : List String := ["tactical", "strategic", "advanced", "email"]

/-- The `_complete` event names in the configured phase order. -/
def configuredCompleteOrder : List String := displayPhases.map (fun p => p ++ "_complete")

/-- JavaScript `String.prototype.includes`. -/
def jsIncludes (s sub : String) : Bool := s.data.tails.any (fun t => sub.data.isPrefixOf t)

/-- `workflowName?.includes("Basic")` with optional chaining:
`undefined` is falsy. -/
def nameIncludesBasic : Option String → Bool
  | none => false
  | some n => jsIncludes n "Basic"

/-- The phase cards actually rendered (`ProgressiveResultsDisplay.jsx`
lines 233-251): the `advanced` card is skipped when the workflow name
contains `Basic`. -/
def phaseCardsShown (workflowName : Option String) : List String :=
  displayPhases.filter (fun p => !(p == "advanced" && nameIncludesBasic workflowName))

/-- The displayed overall progress percentage
(`ProgressiveResultsDisplay.jsx` lines 215-229):
`Math.round(((completedPhases?.length || 0) / phases.length) * 100)`,
where `phases.length` is always 4.  The rendered fraction
`completedPhases.length / phases.length` uses the same divisor. -/
def overallProgressPercent (s : WorkflowState) : ℤ :=
  jsRound ((s.completedPhases.length : ℚ) / (displayPhases.length : ℚ) * 100)

end Progressive

namespace Realtime

/-- The `phases` array of `simulateRealWorkflowExecution`
(`RealtimeWorkflowDisplay.jsx` lines 89-95), by phase name. -/
def simPhases : List String :=
  ["initializing", "crewai_tactical", "ibm_strategic", "advanced_intelligence", "email_generation"]

/-- The component state touched by the simulation and the stop button:
`currentPhase`, `workflowStopped`, and the pending `setTimeout` chain of
`executePhase` (holding the phase index the next firing will run). -/
structure SimState where
  currentPhase : String
  workflowStopped : Bool
  pending : Option Nat
deriving Repr, DecidableEq

/-- The component state starts as idle with no stop flag and no pending timer. -/
def initSimState : SimState := { currentPhase := "idle", workflowStopped := false, pending := none }

/-- `executePhase` (`RealtimeWorkflowDisplay.jsx` lines 99-112) at phase
index `i`: if `i < phases.length`, set the phase active and schedule the
timeout that will increment the index and recurse; otherwise do nothing. -/
def executePhase (i : Nat) (s : SimState) : SimState :=
  if i < simPhases.length then
    { s with currentPhase := simPhases.getD i "", pending := some (i + 1) }
  else
    { s with pending := none }

/-- Start of the simulation (`useEffect` lines 20-25 +
`simulateRealWorkflowExecution` line 114): set phase `initializing` and run
`executePhase(0)`. -/
def startSim (s : SimState) : SimState :=
  executePhase 0 { s with currentPhase := "initializing" }

/-- A pending `setTimeout` callback fires (`RealtimeWorkflowDisplay.jsx`
lines 107-110): `currentPhaseIndex++; executePhase()`.  Nothing in the
component ever clears this timeout. -/
def timerFire (s : SimState) : SimState :=
  match s.pending with
  | some j => executePhase j { s with pending := none }
  | none => s

/-- `handleStopWorkflow` of the display component (lines 79-85): set
`workflowStopped`, set phase `stopped`, and notify the parent; the pending
timeout chain is left untouched. -/
def handleStopSim (s : SimState) : SimState :=
  { s with workflowStopped := true, currentPhase := "stopped" }

/-- JavaScript `Array.prototype.indexOf`: `-1` when absent. -/
def jsIndexOf (l : List String) (x : String) : ℤ :=
  match l.indexOf? x with
  | some i => i
  | none => -1

/-- `getPhaseStatus` (`RealtimeWorkflowDisplay.jsx` lines 185-194):
classify a phase as completed, active, or pending relative to
`currentPhase`. -/
def getSimPhaseStatus (currentPhase phase : String) : String :=
  let currentIndex := jsIndexOf simPhases currentPhase
  let phaseIndex := jsIndexOf simPhases phase
  if currentPhase = "completed" then "completed"
  else if phaseIndex < currentIndex then "completed"
  else if phaseIndex = currentIndex then "active"
  else "pending"

end Realtime

namespace Selector

/-- The request body assembled by `handleRunWorkflow`
(`CompanySelector.jsx` lines 55-59). -/
structure SelectionData where
  company_names : List String
  workflow_type : String
  send_emails : Bool
deriving Repr, DecidableEq

/-- `handleRunWorkflow` (`CompanySelector.jsx` lines 49-62): with no
company selected, set the error banner and return without calling
`onRunBatchWorkflow`; otherwise submit the selection.  Result:
(selection submitted, error banner set). -/
def handleRunWorkflow (selectedCompanies : List String) (workflowType : String)
    (sendEmails : Bool) : Option SelectionData × Option String :=
  if selectedCompanies.length = 0 then
    (none, some "Please select at least one company")
  else
    (some { company_names := selectedCompanies
            workflow_type := workflowType
            send_emails := sendEmails }, none)

/-- The `disabled` attribute of the run button (`CompanySelector.jsx`
line 310): `isLoading || selectedCompanies.length === 0`. -/
def runButtonDisabled (isLoading : Bool) (selectedCount : Nat) : Bool :=
  isLoading || selectedCount == 0

end Selector

namespace Batch

/-- The `summary` object of a batch result as read by
`BatchResultsDisplay`. -/
structure BatchSummary where
  successful_workflows : Nat
  failed_workflows : Nat
deriving Repr, DecidableEq

/-- The batch result object consumed by `BatchResultsDisplay`
(`CompanySelector.jsx` bundle, `BatchResultsDisplay` component). -/
structure BatchResults where
  companies_processed : Nat
  summary : BatchSummary
  emails_sent : Nat
deriving Repr, DecidableEq

/-- The `Successful` metric card: `batchResults.summary.successful_workflows`. -/
def displayedSuccessful (b : BatchResults) : Nat := b.summary.successful_workflows

/-- The `Failed` metric card: `batchResults.summary.failed_workflows`. -/
def displayedFailed (b : BatchResults) : Nat := b.summary.failed_workflows

/-- The displayed success rate:
`Math.round((summary.successful_workflows / companies_processed) * 100)`. -/
def successRatePercent (b : BatchResults) : ℤ :=
  jsRound ((b.summary.successful_workflows : ℚ) / (b.companies_processed : ℚ) * 100)

end Batch

namespace Demo

open App

/-- Modelled from the spec: the backend stream emitter (the FastAPI side of
the `/api/agents/basic/stream` endpoint) is not among the repository
sources.  Following §4.4 and §6 of the spec, a completed workflow emits
`<tier>_start` and `<tier>_complete` for each configured tier in order and
a final `workflow_complete` event carrying the human-readable workflow
name; the Basic workflow runs the tactical, strategic and email tiers (its
advanced card is the one the display skips). -/
def basicFullStream : List WorkflowEvent :=
  [⟨some "tactical_start", some "Starting tactical analysis", none, none⟩,
   ⟨some "tactical_complete", some "Tactical analysis complete", some "tacticalData", none⟩,
   ⟨some "strategic_start", some "Starting strategic analysis", none, none⟩,
   ⟨some "strategic_complete", some "Strategic analysis complete", some "strategicData", none⟩,
   ⟨some "email_start", some "Generating email", none, none⟩,
   ⟨some "email_complete", some "Email generated", some "emailData", none⟩,
   ⟨some "workflow_complete", some "Workflow complete", some "merged",
     some "Basic 8-Agent Intelligence (Fast)"⟩]

/-- A concrete stand-in for `JSON.parse` that fails on one specific
payload, used to exercise the stream-parser error path on explicit
inputs. -/
def sseDemoParse : String → Option String :=
  fun s => if s == "not json" then none else some s

end Demo

/-! ## Helper lemmas -/

namespace App

/-- `onMessage` either leaves `completedPhases` unchanged or appends the
single phase of the event, and appends only a phase not already present. -/
theorem onMessage_completedPhases_cases (e : WorkflowEvent) (s : WorkflowState) :
    (onMessage e s).completedPhases = s.completedPhases ∨
    ((onMessage e s).completedPhases = s.completedPhases ++ [e.phase.getD ""] ∧
      e.phase.getD "" ∉ s.completedPhases) := by
  unfold onMessage
  dsimp only
  split_ifs <;> simp_all

/-- One `onMessage` step only ever extends `completedPhases` at the end. -/
theorem completedPhases_prefix_step (e : WorkflowEvent) (s : WorkflowState) :
    s.completedPhases <+: (onMessage e s).completedPhases := by
  rcases onMessage_completedPhases_cases e s with h | ⟨h, _⟩
  · rw [h]
  · rw [h]; exact ⟨_, rfl⟩

/-- One `onMessage` step preserves freedom from duplicates. -/
theorem completedPhases_nodup_step (e : WorkflowEvent) (s : WorkflowState)
    (h : s.completedPhases.Nodup) : (onMessage e s).completedPhases.Nodup := by
  rcases onMessage_completedPhases_cases e s with hc | ⟨hc, hmem⟩
  · rw [hc]; exact h
  · rw [hc]
    simp only [List.nodup_append, List.nodup_cons, List.nodup_nil, and_true, List.not_mem_nil,
      not_false_iff, List.disjoint_singleton]
    exact ⟨h, by simpa using hmem⟩

/-- Processing any event sequence only ever extends `completedPhases`. -/
theorem processEvents_extends (events : List WorkflowEvent) (s : WorkflowState) :
    s.completedPhases <+: (processEvents events s).completedPhases := by
  induction events generalizing s with
  | nil => exact ⟨[], by simp [processEvents]⟩
  | cons e es ih =>
      exact (completedPhases_prefix_step e s).trans (ih (onMessage e s))

/-- Processing any event sequence preserves freedom from duplicates. -/
theorem processEvents_nodup (events : List WorkflowEvent) (s : WorkflowState)
    (h : s.completedPhases.Nodup) : (processEvents events s).completedPhases.Nodup := by
  induction events generalizing s with
  | nil => exact h
  | cons e es ih => exact ih (onMessage e s) (completedPhases_nodup_step e s h)

/-- `isComplete` is set exactly by the `workflow_complete` branch. -/
theorem onMessage_isComplete (e : WorkflowEvent) (s : WorkflowState) :
    (onMessage e s).isComplete =
      (if e.phase.getD "" = "workflow_complete" then true else s.isComplete) := by
  unfold onMessage
  dsimp only
  split_ifs <;> simp_all

end App

namespace Heartbeat

/-- Both heartbeat operations preserve the invariant that the live interval
timers are exactly the one held by the ref. -/
theorem applyOp_live_inv (s : TimerSys) (h : s.live = s.ref.toList) (op : HeartbeatOp) :
    (applyOp s op).live = (applyOp s op).ref.toList := by
  cases op with
  | start =>
      unfold applyOp startHeartbeat
      cases href : s.ref <;> simp_all
  | stop =>
      unfold applyOp stopHeartbeat
      cases href : s.ref <;> simp_all

/-- The ref invariant holds after any interleaving of heartbeat
operations. -/
theorem applyOps_live_inv (ops : List HeartbeatOp) (s : TimerSys) (h : s.live = s.ref.toList) :
    (applyOps ops s).live = (applyOps ops s).ref.toList := by
  induction ops generalizing s with
  | nil => exact h
  | cons op rest ih => exact ih (applyOp s op) (applyOp_live_inv s h op)

end Heartbeat

/-! ## Claim theorems -/

open App Progressive Realtime StopCtl Heartbeat Stream Selector Batch Demo

/-- C1 (amended): for every sequence of phase events processed by the
streaming `onMessage` handler, `completedPhases` is monotonically
non-decreasing — entries are only appended at the end, never removed or
reordered — and it never contains a phase name more than once.  (The
original prefix-of-configured-order part of the claim fails; see the
counterexample.) -/
theorem completedPhases_append_only_and_nodup
    (events : List WorkflowEvent) (s : WorkflowState)
    (h : s.completedPhases.Nodup) :
    s.completedPhases <+: (processEvents events s).completedPhases ∧
    (processEvents events s).completedPhases.Nodup :=
  ⟨processEvents_extends events s, processEvents_nodup events s h⟩

/-- C1 witness: the amended claim at a concrete three-event stream from the
initial workflow state. -/
theorem completedPhases_append_only_and_nodup_witness :
    (initialWorkflowState "w").completedPhases <+:
      (processEvents
        [⟨some "tactical_start", some "m", none, none⟩,
         ⟨some "tactical_complete", some "m", some "d", none⟩,
         ⟨some "strategic_complete", some "m", some "d", none⟩]
        (initialWorkflowState "w")).completedPhases ∧
    (processEvents
        [⟨some "tactical_start", some "m", none, none⟩,
         ⟨some "tactical_complete", some "m", some "d", none⟩,
         ⟨some "strategic_complete", some "m", some "d", none⟩]
        (initialWorkflowState "w")).completedPhases.Nodup :=
  completedPhases_append_only_and_nodup _ _ (by decide)

/-- C1 counterexample: after the in-order event stream of a completed
Advanced workflow — whose final event is `workflow_complete`, which also
ends with `_complete` and is therefore pushed — `completedPhases` is not a
prefix of the configured order `tactical, strategic, advanced, email`
(`_complete` names); an out-of-order stream such as `strategic_complete`
alone violates it as well. -/
theorem completedPhases_not_prefix_of_configured_order :
    (processEvents
        [⟨some "tactical_complete", none, none, none⟩,
         ⟨some "strategic_complete", none, none, none⟩,
         ⟨some "advanced_complete", none, none, none⟩,
         ⟨some "email_complete", none, none, none⟩,
         ⟨some "workflow_complete", none, none, none⟩]
        (initialWorkflowState "w")).completedPhases =
      ["tactical_complete", "strategic_complete", "advanced_complete",
       "email_complete", "workflow_complete"] ∧
    ¬ ((processEvents
        [⟨some "tactical_complete", none, none, none⟩,
         ⟨some "strategic_complete", none, none, none⟩,
         ⟨some "advanced_complete", none, none, none⟩,
         ⟨some "email_complete", none, none, none⟩,
         ⟨some "workflow_complete", none, none, none⟩]
        (initialWorkflowState "w")).completedPhases <+: configuredCompleteOrder) := by
  decide

/-- C2 (code bug evaluation): a stop request during the `initializing`
phase sets the terminal `stopped` phase, but the pending `executePhase`
timeout — which `handleStopWorkflow` never clears and which never checks
`workflowStopped` — then fires and makes the later `crewai_tactical` phase
current and shown as active, contradicting the no-later-phase-after-cancel
property. -/
theorem stop_request_does_not_halt_phase_advance :
    (handleStopSim (startSim initSimState)).currentPhase = "stopped" ∧
    (handleStopSim (startSim initSimState)).workflowStopped = true ∧
    (timerFire (handleStopSim (startSim initSimState))).currentPhase = "crewai_tactical" ∧
    getSimPhaseStatus (timerFire (handleStopSim (startSim initSimState))).currentPhase
      "crewai_tactical" = "active" := by
  decide

/-- C3: `handleStopWorkflow` is idempotent — the first call on a tracked
workflow stops the heartbeat, issues exactly the cancel request and clears
the workflow id, after which a second call (with any fetch outcome)
performs no request, changes no state, and raises no error. -/
theorem cancel_twice_idempotent (s : AppCtl) (o1 o2 : FetchOutcome) (wid : String)
    (h : s.currentWorkflowId = some wid) :
    (handleStopWorkflow o1 s).2 = [cancelRequest wid] ∧
    ((handleStopWorkflow o1 s).1).currentWorkflowId = none ∧
    ((handleStopWorkflow o1 s).1).timers.ref = none ∧
    handleStopWorkflow o2 (handleStopWorkflow o1 s).1 = ((handleStopWorkflow o1 s).1, []) := by
  have hstop : ∀ t : TimerSys, (stopHeartbeat t).ref = none := by
    intro t
    unfold stopHeartbeat
    cases ht : t.ref <;> simp [ht]
  unfold handleStopWorkflow
  rw [h]
  cases o1 <;> simp [hstop]

/-- C3 witness: the idempotence statement at a concrete tracked batch id
with a successful first call and an erroring second call. -/
theorem cancel_twice_idempotent_witness :
    (handleStopWorkflow .ok ⟨some "batch_1", initTimerSys, true, none⟩).2 =
      [cancelRequest "batch_1"] ∧
    ((handleStopWorkflow .ok ⟨some "batch_1", initTimerSys, true, none⟩).1).currentWorkflowId
      = none ∧
    ((handleStopWorkflow .ok ⟨some "batch_1", initTimerSys, true, none⟩).1).timers.ref = none ∧
    handleStopWorkflow .netError
        (handleStopWorkflow .ok ⟨some "batch_1", initTimerSys, true, none⟩).1 =
      ((handleStopWorkflow .ok ⟨some "batch_1", initTimerSys, true, none⟩).1, []) :=
  cancel_twice_idempotent ⟨some "batch_1", initTimerSys, true, none⟩ .ok .netError "batch_1" rfl

/-- C4: an event with phase `workflow_complete` sets `isComplete`, records
a truthy `workflow_name`, and ends the loading state; an event with any
other phase leaves `isComplete` and the loading state unchanged. -/
theorem workflow_complete_event_behavior (e : WorkflowEvent) (s : WorkflowState) (loading : Bool) :
    (e.phase = some "workflow_complete" →
        (onMessage e s).isComplete = true ∧
        onMessageLoading e loading = false ∧
        (∀ n : String, e.workflow_name = some n → n ≠ "" →
          (onMessage e s).workflowName = some n)) ∧
    (e.phase ≠ some "workflow_complete" →
        (onMessage e s).isComplete = s.isComplete ∧
        onMessageLoading e loading = loading) := by
  constructor
  · intro hp
    have hph : e.phase.getD "" = "workflow_complete" := by rw [hp]; rfl
    refine ⟨by rw [onMessage_isComplete, if_pos hph], ?_, ?_⟩
    · unfold onMessageLoading
      rw [if_pos hph]
    · intro n hn hne
      unfold onMessage
      dsimp only
      split_ifs <;> simp_all [truthyS]
  · intro hp
    have hph : e.phase.getD "" ≠ "workflow_complete" := by
      cases he : e.phase with
      | none => simp
      | some p =>
          simp only [Option.getD_some]
          intro hcontra
          exact hp (by rw [he, hcontra])
    constructor
    · rw [onMessage_isComplete, if_neg hph]
    · unfold onMessageLoading
      rw [if_neg hph]

/-- C4 witness: a concrete `workflow_complete` event carrying a workflow
name sets completion, ends loading, and records the name. -/
theorem workflow_complete_event_behavior_witness :
    (onMessage
        ⟨some "workflow_complete", some "done", some "full",
          some "Advanced 13-Agent Intelligence"⟩
        (initialWorkflowState "w")).isComplete = true ∧
    onMessageLoading
        ⟨some "workflow_complete", some "done", some "full",
          some "Advanced 13-Agent Intelligence"⟩ true = false ∧
    (onMessage
        ⟨some "workflow_complete", some "done", some "full",
          some "Advanced 13-Agent Intelligence"⟩
        (initialWorkflowState "w")).workflowName = some "Advanced 13-Agent Intelligence" := by
  obtain ⟨h1, h2, h3⟩ :=
    (workflow_complete_event_behavior
      ⟨some "workflow_complete", some "done", some "full",
        some "Advanced 13-Agent Intelligence"⟩
      (initialWorkflowState "w") true).1 rfl
  exact ⟨h1, h2, h3 _ rfl (by decide)⟩

/-- C5: a chunk none of whose lines is a well-formed `data: ` + JSON line
neither aborts the stream nor loses the surrounding events — the stream
delivers exactly the well-formed events of the other chunks in order and
still reports completion. -/
theorem malformed_stream_lines_are_skipped (parse : String → Option String)
    (pre post : List String) (bad : String)
    (h : ∀ l ∈ jsSplitNl bad, parseSSELine parse l = none) :
    readStream parse (pre ++ [bad] ++ post) =
      ((pre.map (chunkMessages parse)).flatten ++ (post.map (chunkMessages parse)).flatten,
        true) := by
  have hbad : chunkMessages parse bad = [] := by
    unfold chunkMessages
    exact List.filterMap_eq_nil_iff.mpr h
  unfold readStream
  simp [hbad]

/-- C5 witness: a malformed middle chunk (a non-`data: ` line plus a line
whose payload fails to parse) between two well-formed chunks. -/
theorem malformed_stream_lines_are_skipped_witness :
    readStream sseDemoParse
        (["data: a"] ++ ["garbage\ndata: not json"] ++ ["data: b\ndata: c"]) =
      (((["data: a"] : List String).map (chunkMessages sseDemoParse)).flatten ++
        ((["data: b\ndata: c"] : List String).map (chunkMessages sseDemoParse)).flatten,
        true) :=
  malformed_stream_lines_are_skipped sseDemoParse ["data: a"] ["data: b\ndata: c"]
    "garbage\ndata: not json" (by decide)

/-- C6: the heartbeat interval period is 30000 ms, strictly smaller than
the 60000 ms abandonment timeout; `startHeartbeat` installs a live timer;
and every tick issues exactly the heartbeat request for its workflow id
while a failed tick only logs a warning and leaves the timer system
untouched. -/
theorem heartbeat_period_and_fault_tolerance (workflowId : String) (s : TimerSys) :
    heartbeatPeriodMs = 30000 ∧
    heartbeatPeriodMs < abandonTimeoutMs ∧
    (startHeartbeat s).ref.isSome = true ∧
    (∀ ok : Bool, heartbeatTick workflowId ok s =
      (s, [heartbeatRequest workflowId], if ok then [] else ["Heartbeat failed:"])) ∧
    heartbeatTick workflowId false s = (s, [heartbeatRequest workflowId], ["Heartbeat failed:"]) :=
  ⟨rfl, by decide, rfl, fun _ => rfl, rfl⟩

/-- C7: a batch in which every processed company succeeded displays the
full successful count, the failed count straight from the summary, and a
success rate of exactly 100 percent. -/
theorem batch_all_successful_summary (b : BatchResults)
    (h1 : 0 < b.companies_processed)
    (h2 : b.summary.successful_workflows = b.companies_processed) :
    displayedSuccessful b = b.companies_processed ∧
    displayedFailed b = b.summary.failed_workflows ∧
    successRatePercent b = 100 := by
  refine ⟨h2, rfl, ?_⟩
  unfold successRatePercent
  rw [h2, div_self (by exact_mod_cast h1.ne' : (b.companies_processed : ℚ) ≠ 0)]
  norm_num [jsRound]

/-- C7 witness: a batch of three companies, all successful. -/
theorem batch_all_successful_summary_witness :
    displayedSuccessful ⟨3, ⟨3, 0⟩, 3⟩ = 3 ∧
    displayedFailed ⟨3, ⟨3, 0⟩, 3⟩ = 0 ∧
    successRatePercent ⟨3, ⟨3, 0⟩, 3⟩ = 100 :=
  batch_all_successful_summary ⟨3, ⟨3, 0⟩, 3⟩ (by decide) rfl

/-- C8 (amended): the overall progress percentage is always computed as
`completedPhases.length / 4` regardless of workflow type — the Basic
workflow only has its advanced card skipped — but because the terminal
`workflow_complete` event is itself appended to `completedPhases`, a fully
completed Basic workflow displays 4/4 = 100 percent, not at most 75. -/
theorem overall_progress_always_out_of_four (s : WorkflowState) :
    overallProgressPercent s = jsRound ((s.completedPhases.length : ℚ) / 4 * 100) ∧
    phaseCardsShown (some "Basic 8-Agent Intelligence (Fast)") =
      ["tactical", "strategic", "email"] ∧
    overallProgressPercent (processEvents basicFullStream (initialWorkflowState "w")) = 100 := by
  refine ⟨by norm_num [overallProgressPercent, displayPhases], by decide, ?_⟩
  have hlen : (processEvents basicFullStream (initialWorkflowState "w")).completedPhases.length
      = 4 := by decide
  unfold overallProgressPercent
  rw [hlen]
  norm_num [displayPhases, jsRound]

/-- C8 counterexample: the event stream of a fully completed Basic
workflow drives the displayed overall progress to exactly 100 percent —
not at most 75 — because `workflow_complete` is counted as a fourth
completed phase. -/
theorem basic_full_run_reaches_full_progress :
    overallProgressPercent (processEvents basicFullStream (initialWorkflowState "w")) = 100 ∧
    ¬ (overallProgressPercent (processEvents basicFullStream (initialWorkflowState "w")) ≤ 75) := by
  have hlen : (processEvents basicFullStream (initialWorkflowState "w")).completedPhases.length
      = 4 := by decide
  have h100 : overallProgressPercent (processEvents basicFullStream (initialWorkflowState "w"))
      = 100 := by
    unfold overallProgressPercent
    rw [hlen]
    norm_num [displayPhases, jsRound]
  exact ⟨h100, by rw [h100]; norm_num⟩

/-- C9: after any interleaving of `startHeartbeat` and `stopHeartbeat`
calls from the initial ref state, at most one heartbeat interval timer is
live — repeated batch submissions never accumulate duplicate heartbeat
senders. -/
theorem at_most_one_heartbeat_timer (ops : List HeartbeatOp) :
    (applyOps ops initTimerSys).live.length ≤ 1 := by
  have h := applyOps_live_inv ops initTimerSys rfl
  rw [h]
  cases (applyOps ops initTimerSys).ref <;> simp

/-- C10: with zero companies selected `handleRunWorkflow` sets the error
banner and submits nothing, and the run button is disabled; every
selection it does submit carries at least one company name. -/
theorem no_empty_batch_submitted (selected : List String) (wt : String) (se : Bool) (l : Bool) :
    (selected = [] →
        handleRunWorkflow selected wt se = (none, some "Please select at least one company") ∧
        runButtonDisabled l selected.length = true) ∧
    (∀ d : SelectionData, (handleRunWorkflow selected wt se).1 = some d →
        d.company_names = selected ∧ 1 ≤ d.company_names.length) := by
  constructor
  · rintro rfl
    exact ⟨rfl, by simp [runButtonDisabled]⟩
  · intro d hd
    unfold handleRunWorkflow at hd
    by_cases hlen : selected.length = 0
    · rw [if_pos hlen] at hd
      exact absurd hd (by simp)
    · rw [if_neg hlen] at hd
      have hde : (⟨selected, wt, se⟩ : SelectionData) = d := Option.some.inj hd
      rw [← hde]
      exact ⟨rfl, Nat.one_le_iff_ne_zero.mpr hlen⟩

/-- C10 witness: the empty selection is rejected with the error banner and
a disabled button, and a concrete one-company selection is submitted with
one company name. -/
theorem no_empty_batch_submitted_witness :
    (handleRunWorkflow [] "basic" true = (none, some "Please select at least one company") ∧
      runButtonDisabled false ([] : List String).length = true) ∧
    ((["InnovateTech Solutions"] : List String) = ["InnovateTech Solutions"] ∧
      1 ≤ (["InnovateTech Solutions"] : List String).length) :=
  ⟨(no_empty_batch_submitted [] "basic" true false).1 rfl,
    (no_empty_batch_submitted ["InnovateTech Solutions"] "basic" true false).2
      ⟨["InnovateTech Solutions"], "basic", true⟩ rfl⟩

end SalesForge
